import Mathlib

/-!
# Verification of the glance arr-stack / FreshRSS widgets

This file shallowly embeds the release-fetch-and-normalize pipelines of the
repository (Sonarr / Radarr calendar widgets and the FreshRSS feed widget)
and proves properties about them.

Modelling conventions:
* Instants are integers (milliseconds since the Unix epoch); timezones are
  fixed UTC offsets in milliseconds (`time.LoadLocation` results and
  `time.Local` are modelled as such offsets).
* Go's `time.AddDate(0, 0, d)` on a fixed-offset zone adds exactly `d` civil
  days, i.e. `d * 86400000` milliseconds.
* A date-typed JSON string is abstracted by `DateStr`: the empty string, a
  string that parses to an instant (with the zone offset carried by the
  string), or a non-empty string that fails to parse.
* The network is a `UpstreamOutcome` value supplied by the environment:
  transport failure, non-200 status, malformed JSON, or a decoded entry list.
* Fallible Go functions returning `(value, error)` are embedded as
  `Except String value`; `(nil, err)` is `.error err`.
* Fetchers also return the number of HTTP requests they issued.
-/

/-- Milliseconds in one civil day. -/
def msPerDay : Int := 86400000

/-- Go `AddDate(0, 0, d)` on a fixed-offset zone: shift by whole days. -/
def addDays (t d : Int) : Int := t + d * msPerDay

/-- Modelled from the spec: `getStartOfDay` (declared outside the given
sources) — the start of the civil day containing instant `t` in the zone
with offset `z`, returned as an instant. -/
def getStartOfDay (t z : Int) : Int := t - (t + z) % msPerDay

/-- Modelled from the spec: `getEndOfDay` (declared outside the given
sources) — the canonical end of day, 23:59:59.999 local, as an instant. -/
def getEndOfDay (t z : Int) : Int := getStartOfDay t z + (msPerDay - 1)

/-- Abstraction of a date-carrying JSON string field: empty, parseable to an
instant (with the zone offset encoded in the string), or unparseable. -/
inductive DateStr where
  | empty : DateStr
  | valid (instant : Int) (offset : Int) : DateStr
  | invalid (s : String) : DateStr
deriving DecidableEq

/-- Go `s != ""` on the abstracted date string. -/
def DateStr.nonEmpty : DateStr → Bool
  | .empty => false
  | _ => true

/-- Go `time.Parse` on the abstracted date string: the instant and the zone
offset read from the string, or `none` on failure (in particular the empty
string never parses). -/
def goParseDate : DateStr → Option (Int × Int)
  | .valid t off => some (t, off)
  | _ => none

/-- A configured timezone name: unset (`""`), a name `time.LoadLocation`
resolves (modelled as a fixed offset), or a name it rejects. -/
inductive GoTimezone where
  | unset : GoTimezone
  | known (offset : Int) : GoTimezone
  | unknown (name : String) : GoTimezone
deriving DecidableEq

/-- Go `fmt.Sprintf("%02d", n)`: decimal with at least two characters. -/
def pad2 (n : Int) : String :=
  if 0 ≤ n ∧ n < 10 then "0" ++ toString n else toString n

/-- Civil date (year, month, day) from a count of days since 1970-01-01,
proleptic Gregorian calendar. -/
def civilFromDays (days : Int) : Int × Int × Int :=
  let z := days + 719468
  let era := z / 146097
  let doe := z - era * 146097
  let yoe := (doe - doe / 1460 + doe / 36524 - doe / 146096) / 365
  let doy := doe - (365 * yoe + yoe / 4 - yoe / 100)
  let mp := (5 * doy + 2) / 153
  let d := doy - (153 * mp + 2) / 5 + 1
  let m := mp + (if mp < 10 then 3 else -9)
  (yoe + era * 400 + (if m ≤ 2 then 1 else 0), m, d)

/-- Go `Format("01-02 15:04")` of a wall-clock instant (local milliseconds). -/
def goFormatDashDate (wall : Int) : String :=
  let days := wall / msPerDay
  let msOfDay := wall % msPerDay
  let c := civilFromDays days
  pad2 c.2.1 ++ "-" ++ pad2 c.2.2 ++ " " ++
    pad2 (msOfDay / 3600000) ++ ":" ++ pad2 (msOfDay % 3600000 / 60000)

/-- Go `Format("01/02 15:04")` of a wall-clock instant. -/
def goFormatSlashDate (wall : Int) : String :=
  let days := wall / msPerDay
  let msOfDay := wall % msPerDay
  let c := civilFromDays days
  pad2 c.2.1 ++ "/" ++ pad2 c.2.2 ++ " " ++
    pad2 (msOfDay / 3600000) ++ ":" ++ pad2 (msOfDay % 3600000 / 60000)

/-- Go `strings.TrimSuffix`. -/
def trimSuffix (s suf : String) : String :=
  if s.endsWith suf then s.dropRight suf.length else s

/-- Outcome of an upstream HTTP calendar request, as seen by the fetcher. -/
inductive UpstreamOutcome (α : Type) where
  | transportError (msg : String) : UpstreamOutcome α
  | badStatus (code : Nat) : UpstreamOutcome α
  | badJson (msg : String) : UpstreamOutcome α
  | ok (entries : List α) : UpstreamOutcome α
deriving DecidableEq

/-- Modelled from the spec: `decodeJsonFromRequest` (declared outside the
given sources) — performs the request and fails on transport error, non-200
status, or malformed JSON, otherwise yields the decoded value. -/
def decodeJsonFromRequest {α : Type} : UpstreamOutcome α → Except String (List α)
  | .transportError msg => .error msg
  | .badStatus code => .error ("unexpected status code: " ++ toString code)
  | .badJson msg => .error msg
  | .ok entries => .ok entries

/-- An entry of an `images` array of the upstream JSON. -/
structure GoImage where
  coverType : String
  remoteUrl : String
deriving DecidableEq

/-- The first image whose `coverType` is `"poster"`, else the zero value. -/
def findPoster (images : List GoImage) : String :=
  match images.find? (fun image => image.coverType == "poster") with
  | some image => image.remoteUrl
  | none => ""

/-! ## The day-window Sonarr revision

`internal/feed/sonarr-releases.go` (`FetchReleasesFromSonarr`); the identical
logic also appears in `internal/glance/widget-releases-sonarr.go`
(`fetchReleasesFromSonarr`). -/

namespace FeedDW

structure SonarrConfig where
  internalUrl : String
  skipSsl : Bool
  apiKey : String
  externalUrl : String
  timezone : GoTimezone
  dayOffset : Int
  fromPreviousDays : Int
  tags : String
deriving DecidableEq

structure SonarrSeries where
  title : String
  images : List GoImage
  titleSlug : String
deriving DecidableEq

structure SonarrReleaseResponse where
  hasFile : Bool
  seasonNumber : Int
  episodeNumber : Int
  series : SonarrSeries
  airDateUtc : DateStr
  episodeTitle : String
deriving DecidableEq

structure SonarrRelease where
  title : String
  episodeTitle : String
  imageCoverUrl : String
  airDateUtc : String
  seasonNumber : String
  episodeNumber : String
  grabbed : Bool
  url : String
deriving DecidableEq

/-- Lines 61-63: `if Sonarr.FromPreviousDays < 0 || Sonarr.FromPreviousDays > 6
{ Sonarr.FromPreviousDays = 0 }`. -/
def sonarrEffectiveFromPreviousDays (n : Int) : Int :=
  if n < 0 ∨ 6 < n then 0 else n

structure SonarrWindows where
  startDateUTC : Int
  endDateUTC : Int
  startDateLocal : Int
  endDateLocal : Int
  queryStart : Int
  queryEnd : Int
deriving DecidableEq

/-- Lines 65-101 of `internal/feed/sonarr-releases.go`: the UTC and local day
windows for resolved zone offset `z` and effective lookback `nEff`.  The
query range sent upstream is the UTC window widened by one day on each side. -/
def sonarrWindows (now z dayOffset nEff : Int) : SonarrWindows :=
  let timeSet := if dayOffset = 0 then now else addDays now dayOffset
  let sUTC := getStartOfDay timeSet 0
  let eUTC := getEndOfDay timeSet 0
  let sLoc := getStartOfDay timeSet z
  let eLoc := getEndOfDay timeSet z
  let sUTC := if nEff = 0 then sUTC else addDays sUTC (-nEff)
  let sLoc := if nEff = 0 then sLoc else addDays sLoc (-nEff)
  { startDateUTC := sUTC, endDateUTC := eUTC,
    startDateLocal := sLoc, endDateLocal := eLoc,
    queryStart := addDays sUTC (-1), queryEnd := addDays eUTC 1 }

/-- Lines 74-83: `time.Local` when no timezone is configured, otherwise
`time.LoadLocation`, which fails on an unknown name. -/
def resolveTimezone (tz : GoTimezone) (localOffset : Int) : Except String Int :=
  match tz with
  | .unset => .ok localOffset
  | .known offset => .ok offset
  | .unknown name => .error ("unknown time zone " ++ name)

/-- Lines 150-156: deep link built from the external URL when set, else the
internal URL. -/
def sonarrLinkUrl (cfg : SonarrConfig) (slug : String) : String :=
  let url := if cfg.externalUrl ≠ "" then cfg.externalUrl else cfg.internalUrl
  trimSuffix url "/" ++ "/series/" ++ slug

/-- Lines 136-167: the normalized release built from an in-window entry whose
air date parsed to instant `t`, displayed in the zone with offset `z`. -/
def mkSonarrRelease (cfg : SonarrConfig) (z : Int) (e : SonarrReleaseResponse)
    (t : Int) : SonarrRelease :=
  { title := e.series.title
    episodeTitle := e.episodeTitle
    imageCoverUrl := findPoster e.series.images
    airDateUtc := goFormatDashDate (t + z)
    seasonNumber := pad2 e.seasonNumber
    episodeNumber := pad2 e.episodeNumber
    grabbed := e.hasFile
    url := sonarrLinkUrl cfg e.series.titleSlug }

/-- Lines 124-168: the decode loop.  Each entry's air date is parsed (a parse
failure aborts the whole fetch, discarding everything); an entry whose local
air time falls outside `[startDateLocal, endDateLocal]` is skipped before any
formatting happens. -/
def sonarrProcessEntries (cfg : SonarrConfig) (z startDateLocal endDateLocal : Int) :
    List SonarrReleaseResponse → Except String (List SonarrRelease)
  | [] => .ok []
  | e :: rest =>
    match goParseDate e.airDateUtc with
    | none => .error "failed to parse air date"
    | some (t, _) =>
      if t < startDateLocal ∨ endDateLocal < t then
        sonarrProcessEntries cfg z startDateLocal endDateLocal rest
      else
        match sonarrProcessEntries cfg z startDateLocal endDateLocal rest with
        | .error msg => .error msg
        | .ok rs => .ok (mkSonarrRelease cfg z e t :: rs)

/-- The environment of one fetch: the current instant, the process-local
zone offset, and the upstream response. -/
structure SonarrWorld where
  now : Int
  localOffset : Int
  upstream : UpstreamOutcome SonarrReleaseResponse

/-- `FetchReleasesFromSonarr` of `internal/feed/sonarr-releases.go`.  Returns
the result together with the number of HTTP requests issued. -/
def FetchReleasesFromSonarr (cfg : SonarrConfig) (w : SonarrWorld) :
    Except String (List SonarrRelease) × Nat :=
  if cfg.internalUrl = "" then (.error "missing sonarr internal-url config", 0)
  else if cfg.apiKey = "" then (.error "missing sonarr-apikey config", 0)
  else
    let nEff := sonarrEffectiveFromPreviousDays cfg.fromPreviousDays
    match resolveTimezone cfg.timezone w.localOffset with
    | .error msg => (.error msg, 0)
    | .ok z =>
      let win := sonarrWindows w.now z cfg.dayOffset nEff
      match decodeJsonFromRequest w.upstream with
      | .error msg => (.error msg, 1)
      | .ok entries =>
        (sonarrProcessEntries cfg z win.startDateLocal win.endDateLocal entries, 1)

theorem sonarrEffectiveFromPreviousDays_nonneg (n : Int) :
    0 ≤ sonarrEffectiveFromPreviousDays n := by
  unfold sonarrEffectiveFromPreviousDays
  split <;> omega

/-- C1: for every day-offset, every lookback (after the code's [0,6]
normalisation), every zone offset and every "now", the UTC query window start
(start of the offset UTC day, minus the lookback, minus one extra day) is at
most the local acceptance-window start (start of the offset local day minus
the lookback), which is at most the local acceptance-window end (end of the
offset local day). -/
theorem sonarr_query_window_le_local_window (now z dayOffset n : Int) :
    (sonarrWindows now z dayOffset (sonarrEffectiveFromPreviousDays n)).queryStart ≤
      (sonarrWindows now z dayOffset (sonarrEffectiveFromPreviousDays n)).startDateLocal ∧
    (sonarrWindows now z dayOffset (sonarrEffectiveFromPreviousDays n)).startDateLocal ≤
      (sonarrWindows now z dayOffset (sonarrEffectiveFromPreviousDays n)).endDateLocal := by
  have hn : 0 ≤ sonarrEffectiveFromPreviousDays n := sonarrEffectiveFromPreviousDays_nonneg n
  simp only [sonarrWindows, getStartOfDay, getEndOfDay, addDays, msPerDay]
  split_ifs <;> constructor <;> omega

/-- C7 counterexample: a configured lookback of 7 is reset to 0 by the code,
whereas clamping to the interval [0,6] would give 6. -/
theorem sonarr_from_previous_days_not_clamped :
    sonarrEffectiveFromPreviousDays 7 = 0 ∧
      sonarrEffectiveFromPreviousDays 7 ≠ max 0 (min 7 6) := by
  decide

/-- C6: whenever the day-offset Sonarr decode loop succeeds, every release in
the returned list was built from an entry of the response whose air date
parsed and whose instant lies inside the local acceptance window
`[startDateLocal, endDateLocal]`; entries outside it never reach the
formatting step. -/
theorem sonarr_releases_only_from_window (cfg : SonarrConfig)
    (z sL eL : Int) (entries : List SonarrReleaseResponse)
    (l : List SonarrRelease)
    (h : sonarrProcessEntries cfg z sL eL entries = .ok l) :
    ∀ r ∈ l, ∃ e ∈ entries, ∃ t off,
      goParseDate e.airDateUtc = some (t, off) ∧
      ¬ t < sL ∧ ¬ eL < t ∧ r = mkSonarrRelease cfg z e t := by
  induction entries generalizing l with
  | nil =>
    simp only [sonarrProcessEntries, Except.ok.injEq] at h
    subst h
    intro r hr
    exact absurd hr (List.not_mem_nil r)
  | cons e rest ih =>
    rw [sonarrProcessEntries] at h
    split at h
    · exact absurd h (by simp)
    · rename_i t off hp
      split at h
      · rename_i hw
        intro r hr
        obtain ⟨e', he', rest'⟩ := ih l h r hr
        exact ⟨e', List.mem_cons_of_mem e he', rest'⟩
      · rename_i hw
        split at h
        · exact absurd h (by simp)
        · rename_i rs hrec
          simp only [Except.ok.injEq] at h
          subst h
          intro r hr
          rcases List.mem_cons.mp hr with hr | hr
          · refine ⟨e, List.mem_cons_self e rest, t, off, hp, ?_, ?_, hr⟩
            · exact fun hc => hw (Or.inl hc)
            · exact fun hc => hw (Or.inr hc)
          · obtain ⟨e', he', rest'⟩ := ih rs hrec r hr
            exact ⟨e', List.mem_cons_of_mem e he', rest'⟩

/-- A sample configuration for the concrete runs below. -/
def sampleSonarrConfig : SonarrConfig :=
  { internalUrl := "http://sonarr", skipSsl := false, apiKey := "k",
    externalUrl := "", timezone := .unset, dayOffset := 0,
    fromPreviousDays := 0, tags := "" }

/-- A sample decoded calendar entry airing at instant 5. -/
def sampleSonarrEntry : SonarrReleaseResponse :=
  { hasFile := true, seasonNumber := 1, episodeNumber := 2,
    series := { title := "T", images := [], titleSlug := "t" },
    airDateUtc := .valid 5 0, episodeTitle := "E" }

/-- A concrete run of the C6 theorem: a single entry airing at local instant
5 inside the window `[0, 86399999]` is kept and normalized. -/
theorem sonarr_releases_only_from_window_witness :
    ∃ e ∈ [sampleSonarrEntry], ∃ t off,
      goParseDate e.airDateUtc = some (t, off) ∧
      ¬ t < 0 ∧ ¬ (86399999 : Int) < t ∧
      mkSonarrRelease sampleSonarrConfig 0 sampleSonarrEntry 5 =
        mkSonarrRelease sampleSonarrConfig 0 e t :=
  sonarr_releases_only_from_window sampleSonarrConfig 0 0 86399999
    [sampleSonarrEntry] [mkSonarrRelease sampleSonarrConfig 0 sampleSonarrEntry 5] rfl
    (mkSonarrRelease sampleSonarrConfig 0 sampleSonarrEntry 5)
    (List.mem_singleton.mpr rfl)

/-- C7 (amended): values of the lookback-days field inside [0,6] are used
unchanged, and every value outside [0,6] is reset to 0 (not clamped). -/
theorem sonarr_from_previous_days_effective (n : Int) :
    sonarrEffectiveFromPreviousDays n = if 0 ≤ n ∧ n ≤ 6 then n else 0 := by
  unfold sonarrEffectiveFromPreviousDays
  split <;> split <;> omega

end FeedDW

/-- A string is empty iff its length is zero. -/
theorem string_eq_empty_of_length_eq_zero (s : String) (h : s.length = 0) :
    s = "" := by
  cases s with
  | mk data =>
    simp only [String.length, List.length_eq_zero] at h
    simp [h]

/-- Appending a non-empty string on the right gives a non-empty string. -/
theorem string_append_ne_empty_right (a b : String) (hb : b ≠ "") :
    a ++ b ≠ "" := by
  intro hc
  apply hb
  have hlen := congrArg String.length hc
  rw [String.length_append] at hlen
  have hemp : ("" : String).length = 0 := rfl
  rw [hemp] at hlen
  exact string_eq_empty_of_length_eq_zero b (by omega)

/-- The `01-02 15:04` rendering of a wall-clock instant is never the empty
string (it always contains the separators). -/
theorem goFormatDashDate_ne_empty (wall : Int) : goFormatDashDate wall ≠ "" := by
  unfold goFormatDashDate
  intro hc
  have hlen := congrArg String.length hc
  simp only [String.length_append] at hlen
  have hsep : (":" : String).length = 1 := rfl
  have hemp : ("" : String).length = 0 := rfl
  rw [hsep, hemp] at hlen
  omega

/-! ## The timezone Radarr revision

`src/unnamed/part_002` (`FetchReleasesFromRadarr`, package `feed`): the
revision with the four-field release-date fallback and the `/movie/{slug}`
deep link. -/

namespace FeedTZ

structure RadarrConfig where
  internalUrl : String
  skipSsl : Bool
  apiKey : String
  externalUrl : String
  timezone : GoTimezone
deriving DecidableEq

structure RadarrReleaseResponse where
  hasFile : Bool
  title : String
  images : List GoImage
  airDateUtc : DateStr
  inCinemasDate : DateStr
  physicalReleaseDate : DateStr
  digitalReleaseDate : DateStr
  releaseDate : DateStr
  titleSlug : String
  overview : String
deriving DecidableEq

structure RadarrRelease where
  title : String
  overview : String
  imageCoverUrl : String
  airDateUtc : String
  grabbed : Bool
  url : String
deriving DecidableEq

/-- `HandleRadarrReleaseDatesTimezone`: formats the parsed instant `t` as
`01-02 15:04` in the configured timezone when one is set (failing on an
unknown name), otherwise in the zone offset `off` the date string itself
carried. -/
def HandleRadarrReleaseDatesTimezone (t off : Int) (tz : GoTimezone) :
    Except String String :=
  match tz with
  | .unset => .ok (goFormatDashDate (t + off))
  | .known z => .ok (goFormatDashDate (t + z))
  | .unknown name => .error ("failed to load location: unknown time zone " ++ name)

/-- Lines 112-127 of `src/unnamed/part_002`: pick the release date and its
label from the first non-empty field in the order releaseDate, inCinemas,
physicalRelease, digitalRelease; both keep their zero values when all four
are empty. -/
def radarrChooseDate (r : RadarrReleaseResponse) : DateStr × String :=
  if r.releaseDate.nonEmpty then (r.releaseDate, "")
  else if r.inCinemasDate.nonEmpty then (r.inCinemasDate, "Cinemas: ")
  else if r.physicalReleaseDate.nonEmpty then (r.physicalReleaseDate, "Physical: ")
  else if r.digitalReleaseDate.nonEmpty then (r.digitalReleaseDate, "Digital: ")
  else (.empty, "")

/-- Lines 104-110: the overview falls back to the literal `"TBA"`. -/
def radarrOverview (s : String) : String := if s = "" then "TBA" else s

/-- Lines 141-147: the `/movie/{slug}` deep link. -/
def radarrLinkUrl (cfg : RadarrConfig) (slug : String) : String :=
  let url := if cfg.externalUrl ≠ "" then cfg.externalUrl else cfg.internalUrl
  trimSuffix url "/" ++ "/movie/" ++ slug

/-- Lines 149-156: the normalized Radarr release. -/
def mkRadarrRelease (cfg : RadarrConfig) (e : RadarrReleaseResponse)
    (formattedDate : String) : RadarrRelease :=
  { title := e.title
    overview := radarrOverview e.overview
    imageCoverUrl := findPoster e.images
    airDateUtc := formattedDate
    grabbed := e.hasFile
    url := radarrLinkUrl cfg e.titleSlug }

/-- Lines 94-157: the decode loop.  A date-parse or timezone failure on any
entry aborts the whole fetch, discarding everything accumulated so far. -/
def radarrProcessEntries (cfg : RadarrConfig) :
    List RadarrReleaseResponse → Except String (List RadarrRelease)
  | [] => .ok []
  | e :: rest =>
    match goParseDate (radarrChooseDate e).1 with
    | none => .error "failed to parse release date"
    | some (t, off) =>
      match HandleRadarrReleaseDatesTimezone t off cfg.timezone with
      | .error msg => .error ("failed to parse air timezone: " ++ msg)
      | .ok timezoneDate =>
        match radarrProcessEntries cfg rest with
        | .error msg => .error msg
        | .ok rs =>
          .ok (mkRadarrRelease cfg e ((radarrChooseDate e).2 ++ timezoneDate) :: rs)

/-- The environment of one Radarr fetch. -/
structure RadarrWorld where
  upstream : UpstreamOutcome RadarrReleaseResponse

/-- `FetchReleasesFromRadarr` of `src/unnamed/part_002`, with the number of
HTTP requests issued.  The source assigns the error returned by
`decodeJsonFromRequest` to `err` but never checks it: on an upstream failure
the decoded slice keeps its zero value (empty) and the loop runs zero
times, so the fetch reports success with an empty list. -/
def FetchReleasesFromRadarr (cfg : RadarrConfig) (w : RadarrWorld) :
    Except String (List RadarrRelease) × Nat :=
  if cfg.internalUrl = "" then (.error "missing radarr internal-url config", 0)
  else if cfg.apiKey = "" then (.error "missing radarr-apikey config", 0)
  else
    let entries := match decodeJsonFromRequest w.upstream with
      | .error _ => []
      | .ok es => es
    (radarrProcessEntries cfg entries, 1)

/-- The four candidate date fields of a Radarr entry, in the fallback order
stated by the spec, paired with their label prefixes. -/
def radarrDateCandidates (r : RadarrReleaseResponse) : List (DateStr × String) :=
  [(r.releaseDate, ""), (r.inCinemasDate, "Cinemas: "),
   (r.physicalReleaseDate, "Physical: "), (r.digitalReleaseDate, "Digital: ")]

/-- C2: the display date is built from the first non-empty field in the order
releaseDate, inCinemas, physicalRelease, digitalRelease, and the label is
empty exactly for releaseDate and otherwise identifies the selected field. -/
theorem radarr_date_fallback_order (r : RadarrReleaseResponse)
    (p : DateStr × String)
    (h : (radarrDateCandidates r).find? (fun q => q.1.nonEmpty) = some p) :
    radarrChooseDate r = p := by
  cases h1 : r.releaseDate.nonEmpty <;> cases h2 : r.inCinemasDate.nonEmpty <;>
    cases h3 : r.physicalReleaseDate.nonEmpty <;>
    cases h4 : r.digitalReleaseDate.nonEmpty <;>
    simp_all [radarrDateCandidates, radarrChooseDate, List.find?]

/-- A sample Radarr entry whose only non-empty date field is inCinemas. -/
def sampleRadarrEntry : RadarrReleaseResponse :=
  { hasFile := false, title := "M", images := [], airDateUtc := .empty,
    inCinemasDate := .valid 10 0, physicalReleaseDate := .empty,
    digitalReleaseDate := .empty, releaseDate := .empty, titleSlug := "m",
    overview := "" }

/-- A concrete run of the C2 theorem: with only inCinemas set, that field and
the `"Cinemas: "` label are selected. -/
theorem radarr_date_fallback_order_witness :
    radarrChooseDate sampleRadarrEntry = (DateStr.valid 10 0, "Cinemas: ") :=
  radarr_date_fallback_order sampleRadarrEntry (DateStr.valid 10 0, "Cinemas: ") rfl

/-- C3 (code bug): in this revision an upstream failure (here a transport
error) is NOT propagated: the fetch returns success with an empty release
list, because the error from the decode step is never checked. -/
theorem radarr_upstream_error_swallowed :
    FetchReleasesFromRadarr
      { internalUrl := "http://radarr", skipSsl := false, apiKey := "k",
        externalUrl := "", timezone := .unset }
      { upstream := .transportError "connection refused" } = (.ok [], 1) := rfl

/-- If some entry of the list has all four date fields empty, the decode loop
fails: the selected date stays the empty string, which does not parse. -/
theorem radarrProcessEntries_ne_ok_of_all_empty (cfg : RadarrConfig)
    (entries : List RadarrReleaseResponse) (e : RadarrReleaseResponse)
    (he : e ∈ entries)
    (h1 : e.releaseDate = .empty) (h2 : e.inCinemasDate = .empty)
    (h3 : e.physicalReleaseDate = .empty) (h4 : e.digitalReleaseDate = .empty) :
    ∀ l, radarrProcessEntries cfg entries ≠ .ok l := by
  induction entries with
  | nil => cases he
  | cons a rest ih =>
    intro l h
    rw [radarrProcessEntries] at h
    rcases List.mem_cons.mp he with rfl | hmem
    · have hch : radarrChooseDate e = (.empty, "") := by
        unfold radarrChooseDate
        rw [h1, h2, h3, h4]
        rfl
      rw [hch] at h
      simp [goParseDate] at h
    · split at h
      · exact absurd h (by simp)
      · split at h
        · exact absurd h (by simp)
        · split at h
          · exact absurd h (by simp)
          · rename_i rs hrec
            exact ih hmem rs hrec

/-- If some entry of the list has all four date fields empty, the decode loop
fails with some error message. -/
theorem radarrProcessEntries_error_of_all_empty (cfg : RadarrConfig)
    (entries : List RadarrReleaseResponse) (e : RadarrReleaseResponse)
    (he : e ∈ entries)
    (h1 : e.releaseDate = .empty) (h2 : e.inCinemasDate = .empty)
    (h3 : e.physicalReleaseDate = .empty) (h4 : e.digitalReleaseDate = .empty) :
    ∃ msg, radarrProcessEntries cfg entries = .error msg := by
  cases hval : radarrProcessEntries cfg entries with
  | error msg => exact ⟨msg, rfl⟩
  | ok l =>
    exact absurd hval
      (radarrProcessEntries_ne_ok_of_all_empty cfg entries e he h1 h2 h3 h4 l)

/-- Whenever the decode loop succeeds, every release it returns carries a
non-empty formatted date (the `01-02 15:04` rendering is never empty). -/
theorem radarrProcessEntries_dates_nonempty (cfg : RadarrConfig)
    (entries : List RadarrReleaseResponse) (l : List RadarrRelease)
    (h : radarrProcessEntries cfg entries = .ok l) :
    ∀ r ∈ l, r.airDateUtc ≠ "" := by
  induction entries generalizing l with
  | nil =>
    simp only [radarrProcessEntries, Except.ok.injEq] at h
    subst h
    intro r hr
    exact absurd hr (List.not_mem_nil r)
  | cons e rest ih =>
    rw [radarrProcessEntries] at h
    split at h
    · exact absurd h (by simp)
    · rename_i t off hp
      split at h
      · exact absurd h (by simp)
      · rename_i timezoneDate htz
        split at h
        · exact absurd h (by simp)
        · rename_i rs hrec
          simp only [Except.ok.injEq] at h
          subst h
          intro r hr
          rcases List.mem_cons.mp hr with rfl | hr
          · have htd : timezoneDate ≠ "" := by
              cases tz : cfg.timezone with
              | unset =>
                rw [tz] at htz
                simp only [HandleRadarrReleaseDatesTimezone,
                  Except.ok.injEq] at htz
                exact htz ▸ goFormatDashDate_ne_empty _
              | known z =>
                rw [tz] at htz
                simp only [HandleRadarrReleaseDatesTimezone,
                  Except.ok.injEq] at htz
                exact htz ▸ goFormatDashDate_ne_empty _
              | unknown name =>
                rw [tz] at htz
                exact absurd htz (by simp [HandleRadarrReleaseDatesTimezone])
            exact string_append_ne_empty_right _ _ htd
          · exact ih rs hrec r hr

/-- C10: (1) a decoded entry with all of releaseDate, inCinemas,
physicalRelease and digitalRelease empty makes the whole fetch fail (the
empty string does not parse as a date); (2) every release of a successfully
returned list carries a non-empty formatted date. -/
theorem radarr_all_empty_dates_abort :
    (∀ (cfg : RadarrConfig) (w : RadarrWorld)
        (entries : List RadarrReleaseResponse) (e : RadarrReleaseResponse),
        decodeJsonFromRequest w.upstream = .ok entries → e ∈ entries →
        e.releaseDate = .empty → e.inCinemasDate = .empty →
        e.physicalReleaseDate = .empty → e.digitalReleaseDate = .empty →
        ∃ msg, (FetchReleasesFromRadarr cfg w).1 = .error msg) ∧
    (∀ (cfg : RadarrConfig) (w : RadarrWorld) (l : List RadarrRelease),
        (FetchReleasesFromRadarr cfg w).1 = .ok l →
        ∀ r ∈ l, r.airDateUtc ≠ "") := by
  constructor
  · intro cfg w entries e hdec he h1 h2 h3 h4
    unfold FetchReleasesFromRadarr
    by_cases hu : cfg.internalUrl = ""
    · rw [if_pos hu]; exact ⟨_, rfl⟩
    · rw [if_neg hu]
      by_cases hk : cfg.apiKey = ""
      · rw [if_pos hk]; exact ⟨_, rfl⟩
      · rw [if_neg hk]
        simp only [hdec]
        exact radarrProcessEntries_error_of_all_empty cfg entries e he h1 h2 h3 h4
  · intro cfg w l h
    unfold FetchReleasesFromRadarr at h
    by_cases hu : cfg.internalUrl = ""
    · rw [if_pos hu] at h; exact absurd h (by simp)
    · rw [if_neg hu] at h
      by_cases hk : cfg.apiKey = ""
      · rw [if_pos hk] at h; exact absurd h (by simp)
      · rw [if_neg hk] at h
        exact radarrProcessEntries_dates_nonempty cfg _ l h

/-- A Radarr entry whose four date fields are all empty. -/
def allEmptyRadarrEntry : RadarrReleaseResponse :=
  { hasFile := false, title := "M", images := [], airDateUtc := .empty,
    inCinemasDate := .empty, physicalReleaseDate := .empty,
    digitalReleaseDate := .empty, releaseDate := .empty, titleSlug := "m",
    overview := "" }

/-- A concrete run of the C10 theorem: a response consisting of one entry
with all four date fields empty makes the fetch fail. -/
theorem radarr_all_empty_dates_abort_witness :
    ∃ msg, (FetchReleasesFromRadarr
      { internalUrl := "http://radarr", skipSsl := false, apiKey := "k",
        externalUrl := "", timezone := .unset }
      { upstream := .ok [allEmptyRadarrEntry] }).1 = .error msg :=
  radarr_all_empty_dates_abort.1
    { internalUrl := "http://radarr", skipSsl := false, apiKey := "k",
      externalUrl := "", timezone := .unset }
    { upstream := .ok [allEmptyRadarrEntry] }
    [allEmptyRadarrEntry] allEmptyRadarrEntry rfl (List.mem_singleton.mpr rfl)
    rfl rfl rfl rfl

end FeedTZ

/-- C5: for both per-service fetches (the day-window Sonarr revision and the
timezone Radarr revision), an empty base URL or an empty API key makes the
fetch return a configuration error, and zero HTTP requests are issued. -/
theorem missing_config_returns_error_without_request :
    (∀ (cfg : FeedDW.SonarrConfig) (w : FeedDW.SonarrWorld),
        cfg.internalUrl = "" ∨ cfg.apiKey = "" →
        (∃ msg, (FeedDW.FetchReleasesFromSonarr cfg w).1 = .error msg) ∧
          (FeedDW.FetchReleasesFromSonarr cfg w).2 = 0) ∧
    (∀ (cfg : FeedTZ.RadarrConfig) (w : FeedTZ.RadarrWorld),
        cfg.internalUrl = "" ∨ cfg.apiKey = "" →
        (∃ msg, (FeedTZ.FetchReleasesFromRadarr cfg w).1 = .error msg) ∧
          (FeedTZ.FetchReleasesFromRadarr cfg w).2 = 0) := by
  constructor
  · intro cfg w h
    unfold FeedDW.FetchReleasesFromSonarr
    by_cases hu : cfg.internalUrl = ""
    · rw [if_pos hu]; exact ⟨⟨_, rfl⟩, rfl⟩
    · rw [if_neg hu]
      have hk : cfg.apiKey = "" := h.resolve_left hu
      rw [if_pos hk]
      exact ⟨⟨_, rfl⟩, rfl⟩
  · intro cfg w h
    unfold FeedTZ.FetchReleasesFromRadarr
    by_cases hu : cfg.internalUrl = ""
    · rw [if_pos hu]; exact ⟨⟨_, rfl⟩, rfl⟩
    · rw [if_neg hu]
      have hk : cfg.apiKey = "" := h.resolve_left hu
      rw [if_pos hk]
      exact ⟨⟨_, rfl⟩, rfl⟩

/-- A concrete run of the C5 theorem: a Sonarr configuration with an empty
API key yields a configuration error and zero requests. -/
theorem missing_config_returns_error_without_request_witness :
    (∃ msg, (FeedDW.FetchReleasesFromSonarr
        { internalUrl := "http://sonarr", skipSsl := false, apiKey := "",
          externalUrl := "", timezone := .unset, dayOffset := 0,
          fromPreviousDays := 0, tags := "" }
        { now := 0, localOffset := 0, upstream := .ok [] }).1 = .error msg) ∧
      (FeedDW.FetchReleasesFromSonarr
        { internalUrl := "http://sonarr", skipSsl := false, apiKey := "",
          externalUrl := "", timezone := .unset, dayOffset := 0,
          fromPreviousDays := 0, tags := "" }
        { now := 0, localOffset := 0, upstream := .ok [] }).2 = 0 :=
  missing_config_returns_error_without_request.1
    { internalUrl := "http://sonarr", skipSsl := false, apiKey := "",
      externalUrl := "", timezone := .unset, dayOffset := 0,
      fromPreviousDays := 0, tags := "" }
    { now := 0, localOffset := 0, upstream := .ok [] } (Or.inr rfl)

/-! ## The aggregator revision

The second section of `internal/widget/radarr-releases.go` (package `feed`):
`FetchApi`-based Sonarr and Radarr fetches with Enable/Endpoint
configurations, and the `FetchReleasesFromArrStack` aggregator. -/

namespace FeedArr

structure SonarrConfig where
  enable : Bool
  endpoint : String
  skipSsl : Bool
  apiKey : String
  externalUrl : String
  timezone : GoTimezone
deriving DecidableEq

structure RadarrConfig where
  enable : Bool
  endpoint : String
  skipSsl : Bool
  apiKey : String
  externalUrl : String
  timezone : GoTimezone
deriving DecidableEq

structure ArrRelease where
  title : String
  overview : String
  imageCoverUrl : String
  airDateUtc : String
  seasonNumber : Option String
  episodeNumber : Option String
  grabbed : Bool
  url : String
deriving DecidableEq

structure SonarrSeries where
  title : String
  images : List GoImage
  titleSlug : String
deriving DecidableEq

structure SonarrReleaseResponse where
  hasFile : Bool
  seasonNumber : Int
  episodeNumber : Int
  series : SonarrSeries
  airDateUtc : DateStr
  overview : String
deriving DecidableEq

structure RadarrReleaseResponse where
  hasFile : Bool
  title : String
  images : List GoImage
  inCinemasDate : DateStr
  physicalReleaseDate : DateStr
  digitalReleaseDate : DateStr
deriving DecidableEq

/-- `HandleReleaseDatesTimezone` of this revision: `01/02 15:04` format. -/
def HandleReleaseDatesTimezone (t off : Int) (tz : GoTimezone) :
    Except String String :=
  match tz with
  | .unset => .ok (goFormatSlashDate (t + off))
  | .known z => .ok (goFormatSlashDate (t + z))
  | .unknown name => .error ("failed to load location: unknown time zone " ++ name)

/-- `FetchApi` followed by `json.Unmarshal`, with the error messages the
callers end up wrapping them in: transport failure and non-200 status come
out of `FetchApi` (wrapped by the caller as a body-read failure), a
malformed body fails at `json.Unmarshal`. -/
def fetchApiAndUnmarshal {α : Type} : UpstreamOutcome α → Except String (List α)
  | .transportError msg =>
    .error ("failed to read response body: failed to make request: " ++ msg)
  | .badStatus code =>
    .error ("failed to read response body: unexpected status code: " ++ toString code)
  | .badJson msg => .error ("failed to unmarshal JSON: " ++ msg)
  | .ok entries => .ok entries

/-- The overview falls back to the literal `"TBA"`. -/
def arrOverview (s : String) : String := if s = "" then "TBA" else s

/-- Deep link of this revision: external URL when set, else the endpoint. -/
def sonarrLinkUrl (cfg : SonarrConfig) (slug : String) : String :=
  let url := if cfg.externalUrl ≠ "" then cfg.externalUrl else cfg.endpoint
  trimSuffix url "/" ++ "/series/" ++ slug

/-- The normalized release built from a Sonarr entry of this revision. -/
def mkSonarrArrRelease (cfg : SonarrConfig) (e : SonarrReleaseResponse)
    (formattedDate : String) : ArrRelease :=
  { title := e.series.title
    overview := arrOverview e.overview
    imageCoverUrl := findPoster e.series.images
    airDateUtc := formattedDate
    seasonNumber := some (pad2 e.seasonNumber)
    episodeNumber := some (pad2 e.episodeNumber)
    grabbed := e.hasFile
    url := sonarrLinkUrl cfg e.series.titleSlug }

/-- The Sonarr decode loop of this revision (no window filtering). -/
def sonarrProcessEntries (cfg : SonarrConfig) :
    List SonarrReleaseResponse → Except String (List ArrRelease)
  | [] => .ok []
  | e :: rest =>
    match goParseDate e.airDateUtc with
    | none => .error "failed to parse air date"
    | some (t, off) =>
      match HandleReleaseDatesTimezone t off cfg.timezone with
      | .error msg => .error ("failed to parse air timezone: " ++ msg)
      | .ok formattedDate =>
        match sonarrProcessEntries cfg rest with
        | .error msg => .error msg
        | .ok rs => .ok (mkSonarrArrRelease cfg e formattedDate :: rs)

/-- `FetchReleasesFromSonarr` of this revision. -/
def FetchReleasesFromSonarr (cfg : SonarrConfig)
    (w : UpstreamOutcome SonarrReleaseResponse) :
    Except String (List ArrRelease) × Nat :=
  if cfg.endpoint = "" then (.error "missing sonarr-endpoint config", 0)
  else if cfg.apiKey = "" then (.error "missing sonarr-apikey config", 0)
  else
    match fetchApiAndUnmarshal w with
    | .error msg => (.error msg, 1)
    | .ok entries => (sonarrProcessEntries cfg entries, 1)

/-- Lines 307-316 of this revision: inCinemas is the default date with label
`"In Cinemas: "`, overridden by physicalRelease, then digitalRelease. -/
def radarrChooseDate (r : RadarrReleaseResponse) : DateStr × String :=
  if r.physicalReleaseDate.nonEmpty then (r.physicalReleaseDate, "Physical Release: ")
  else if r.digitalReleaseDate.nonEmpty then (r.digitalReleaseDate, "Digital Release: ")
  else (r.inCinemasDate, "In Cinemas: ")

/-- The normalized release built from a Radarr entry of this revision: no
overview, no season or episode numbers, and no deep link. -/
def mkRadarrArrRelease (e : RadarrReleaseResponse) (formattedDate : String) :
    ArrRelease :=
  { title := e.title
    overview := ""
    imageCoverUrl := findPoster e.images
    airDateUtc := formattedDate
    seasonNumber := none
    episodeNumber := none
    grabbed := e.hasFile
    url := "" }

/-- The Radarr decode loop of this revision (date layout `2006-01-02`). -/
def radarrProcessEntries (cfg : RadarrConfig) :
    List RadarrReleaseResponse → Except String (List ArrRelease)
  | [] => .ok []
  | e :: rest =>
    match goParseDate (radarrChooseDate e).1 with
    | none => .error "failed to parse release date"
    | some (t, off) =>
      match HandleReleaseDatesTimezone t off cfg.timezone with
      | .error msg => .error ("failed to parse air timezone: " ++ msg)
      | .ok timezoneDate =>
        match radarrProcessEntries cfg rest with
        | .error msg => .error msg
        | .ok rs =>
          .ok (mkRadarrArrRelease e ((radarrChooseDate e).2 ++ timezoneDate) :: rs)

/-- `FetchReleasesFromRadarr` of this revision. -/
def FetchReleasesFromRadarr (cfg : RadarrConfig)
    (w : UpstreamOutcome RadarrReleaseResponse) :
    Except String (List ArrRelease) × Nat :=
  if cfg.endpoint = "" then (.error "missing radarr-endpoint config", 0)
  else if cfg.apiKey = "" then (.error "missing radarr-apikey config", 0)
  else
    match fetchApiAndUnmarshal w with
    | .error msg => (.error msg, 1)
    | .ok entries => (radarrProcessEntries cfg entries, 1)

/-- `FetchReleasesFromArrStack`: run the enabled fetches in order, Sonarr
first; an error aborts the aggregation with a nil result.  The second
component counts the HTTP requests issued in total. -/
def FetchReleasesFromArrStack (sCfg : SonarrConfig) (rCfg : RadarrConfig)
    (ws : UpstreamOutcome SonarrReleaseResponse)
    (wr : UpstreamOutcome RadarrReleaseResponse) :
    Except String (List ArrRelease) × Nat :=
  match (if sCfg.enable then FetchReleasesFromSonarr sCfg ws else (.ok [], 0)) with
  | (.error msg, c) => (.error msg, c)
  | (.ok sonarrReleases, c) =>
    if rCfg.enable then
      match FetchReleasesFromRadarr rCfg wr with
      | (.error msg, c2) => (.error msg, c + c2)
      | (.ok radarrReleases, c2) => (.ok (sonarrReleases ++ radarrReleases), c + c2)
    else (.ok sonarrReleases, c)

/-- C4: if the Sonarr fetch is enabled and fails, the aggregator returns
exactly that error, issues no Radarr request (the count is the Sonarr
count alone and the outcome does not depend on the Radarr response at
all), and returns no release list; symmetrically, an enabled, failing
Radarr fetch aborts the aggregation when Sonarr did not already. -/
theorem arr_stack_fail_fast :
    (∀ (sCfg : SonarrConfig) (rCfg : RadarrConfig)
        (ws : UpstreamOutcome SonarrReleaseResponse)
        (wr : UpstreamOutcome RadarrReleaseResponse) (msg : String),
        sCfg.enable = true →
        (FetchReleasesFromSonarr sCfg ws).1 = .error msg →
        FetchReleasesFromArrStack sCfg rCfg ws wr =
          (.error msg, (FetchReleasesFromSonarr sCfg ws).2)) ∧
    (∀ (sCfg : SonarrConfig) (rCfg : RadarrConfig)
        (ws : UpstreamOutcome SonarrReleaseResponse)
        (wr : UpstreamOutcome RadarrReleaseResponse) (msg : String),
        rCfg.enable = true →
        (FetchReleasesFromRadarr rCfg wr).1 = .error msg →
        (sCfg.enable = false ∨ ∃ l, (FetchReleasesFromSonarr sCfg ws).1 = .ok l) →
        (FetchReleasesFromArrStack sCfg rCfg ws wr).1 = .error msg) := by
  constructor
  · intro sCfg rCfg ws wr msg hs herr
    unfold FetchReleasesFromArrStack
    rw [if_pos hs]
    rcases hfs : FetchReleasesFromSonarr sCfg ws with ⟨res, c⟩
    rw [hfs] at herr
    simp only at herr
    subst herr
    rfl
  · intro sCfg rCfg ws wr msg hr herr hson
    unfold FetchReleasesFromArrStack
    rcases hfr : FetchReleasesFromRadarr rCfg wr with ⟨resR, cR⟩
    rw [hfr] at herr
    simp only at herr
    subst herr
    rcases hson with hoff | ⟨l, hok⟩
    · rw [if_neg (by simp [hoff])]
      simp [hr]
    · rcases hfs : FetchReleasesFromSonarr sCfg ws with ⟨resS, cS⟩
      rw [hfs] at hok
      simp only at hok
      subst hok
      by_cases hs : sCfg.enable = true
      · rw [if_pos hs]
        simp [hr]
      · rw [if_neg hs]
        simp [hr]

/-- A concrete run of the C4 theorem: Sonarr enabled but its transport
fails, so the aggregator returns the Sonarr error and the Radarr response
is never consulted. -/
theorem arr_stack_fail_fast_witness :
    FetchReleasesFromArrStack
      { enable := true, endpoint := "http://s", skipSsl := false,
        apiKey := "k", externalUrl := "", timezone := .unset }
      { enable := true, endpoint := "http://r", skipSsl := false,
        apiKey := "k", externalUrl := "", timezone := .unset }
      (.transportError "boom") (.ok []) =
      (.error "failed to read response body: failed to make request: boom",
        (FetchReleasesFromSonarr
          { enable := true, endpoint := "http://s", skipSsl := false,
            apiKey := "k", externalUrl := "", timezone := .unset }
          (.transportError "boom")).2) :=
  arr_stack_fail_fast.1
    { enable := true, endpoint := "http://s", skipSsl := false,
      apiKey := "k", externalUrl := "", timezone := .unset }
    { enable := true, endpoint := "http://r", skipSsl := false,
      apiKey := "k", externalUrl := "", timezone := .unset }
    (.transportError "boom") (.ok [])
    "failed to read response body: failed to make request: boom" rfl rfl

end FeedArr

/-! ## The FreshRSS feed fetch and widget

`src/unnamed/part_001` (`GetItemsFromFreshRssFeeds`, package `feed`) and
`internal/widget/freshrss.go` (the `FreshRSS` widget). -/

namespace FeedRSS

/-- A request forwarded to the generic RSS feed fetch (declared outside the
given sources; only the fields this code touches are modelled). -/
structure RSSFeedRequest where
  url : String
  title : String
  isDetailed : Bool
deriving DecidableEq

/-- An item of the generic RSS feed fetch; opaque to this code. -/
structure RSSFeedItem where
  raw : String
deriving DecidableEq

structure FreshRssFeed where
  id : Int
  faviconId : Int
  title : String
  url : String
  siteUrl : String
  isSpark : Int
  lastUpdatedOnTime : Int
deriving DecidableEq

structure FreshRSSFeedsAPI where
  apiVersion : Nat
  auth : Nat
  lastRefreshedOnTime : Int
  feeds : List FreshRssFeed
  feedsGroups : List (Int × String)
deriving DecidableEq

/-- The outgoing Fever API request: method, target URL, content type, and the
`url.Values` form body as the key-value pairs `Encode` emits (sorted keys). -/
structure FreshRequest where
  method : String
  url : String
  contentType : String
  formBody : List (String × String)
deriving DecidableEq

/-- Lines 36-51 of `src/unnamed/part_001`: the Fever API request.  `md5hex`
stands for Go `fmt.Sprintf("%x", md5.Sum(...))` of the standard library: the
lowercase hex MD5 digest of its argument. -/
def freshRssRequest (md5hex : String → String)
    (freshrssUrl freshrssUser freshrsspass : String) : FreshRequest :=
  { method := "POST"
    url := freshrssUrl ++ "/api/fever.php?api"
    contentType := "application/x-www-form-urlencoded"
    formBody := [("api_key", md5hex (freshrssUser ++ ":" ++ freshrsspass)),
                 ("feeds", "")] }

/-- The environment of a FreshRSS fetch: the decode outcome of the Fever
response and the generic RSS feed fetch collaborator
(`GetItemsFromRSSFeeds`, declared outside the given sources). -/
structure FreshWorld where
  decodeResult : Except String FreshRSSFeedsAPI
  rssFetch : List RSSFeedRequest → Except String (List RSSFeedItem)

/-- `GetItemsFromFreshRssFeeds`: build the Fever request, decode the feed
list, and forward each feed's url and title into the generic RSS feed
fetch.  The issued request is returned alongside for inspection. -/
def GetItemsFromFreshRssFeeds (md5hex : String → String)
    (freshrssUrl freshrssUser freshrsspass : String) (w : FreshWorld) :
    FreshRequest × Except String (List RSSFeedItem) :=
  let req := freshRssRequest md5hex freshrssUrl freshrssUser freshrsspass
  match w.decodeResult with
  | .error msg => (req, .error msg)
  | .ok p =>
    (req, w.rssFetch (p.feeds.map fun f =>
      { url := f.url, title := f.title, isDetailed := false }))

/-- C8: the FreshRSS fetch issues a POST to `{base}/api/fever.php?api` whose
form body holds `api_key` = md5 hex of `user:pass` and an empty `feeds`
parameter, and forwards each decoded feed's url and title into the generic
RSS feed fetch. -/
theorem freshrss_request_and_forwarding (md5hex : String → String)
    (freshrssUrl freshrssUser freshrsspass : String) (w : FreshWorld)
    (p : FreshRSSFeedsAPI) (hdec : w.decodeResult = .ok p) :
    (GetItemsFromFreshRssFeeds md5hex freshrssUrl freshrssUser freshrsspass w).1 =
      { method := "POST"
        url := freshrssUrl ++ "/api/fever.php?api"
        contentType := "application/x-www-form-urlencoded"
        formBody := [("api_key", md5hex (freshrssUser ++ ":" ++ freshrsspass)),
                     ("feeds", "")] } ∧
    (GetItemsFromFreshRssFeeds md5hex freshrssUrl freshrssUser freshrsspass w).2 =
      w.rssFetch (p.feeds.map fun f =>
        { url := f.url, title := f.title, isDetailed := false }) := by
  unfold GetItemsFromFreshRssFeeds freshRssRequest
  rw [hdec]
  exact ⟨rfl, rfl⟩

/-- A sample Fever API response listing one feed. -/
def sampleFreshFeeds : FreshRSSFeedsAPI :=
  { apiVersion := 3, auth := 1, lastRefreshedOnTime := 0,
    feeds := [{ id := 1, faviconId := 0, title := "T", url := "http://feed",
                siteUrl := "http://site", isSpark := 0,
                lastUpdatedOnTime := 0 }],
    feedsGroups := [] }

/-- A concrete run of the C8 theorem with a stand-in digest function. -/
theorem freshrss_request_and_forwarding_witness :
    (GetItemsFromFreshRssFeeds (fun s => s ++ "#") "http://f" "u" "p"
        { decodeResult := .ok sampleFreshFeeds,
          rssFetch := fun _ => .ok [] }).1 =
      { method := "POST"
        url := "http://f" ++ "/api/fever.php?api"
        contentType := "application/x-www-form-urlencoded"
        formBody := [("api_key", (fun (s : String) => s ++ "#") ("u" ++ ":" ++ "p")),
                     ("feeds", "")] } ∧
    (GetItemsFromFreshRssFeeds (fun s => s ++ "#") "http://f" "u" "p"
        { decodeResult := .ok sampleFreshFeeds,
          rssFetch := fun _ => .ok [] }).2 =
      (fun (_ : List RSSFeedRequest) =>
          (.ok [] : Except String (List RSSFeedItem)))
        (sampleFreshFeeds.feeds.map fun f =>
          { url := f.url, title := f.title, isDetailed := false }) :=
  freshrss_request_and_forwarding (fun s => s ++ "#") "http://f" "u" "p"
    { decodeResult := .ok sampleFreshFeeds, rssFetch := fun _ => .ok [] }
    sampleFreshFeeds rfl

end FeedRSS

namespace WidgetRSS

/-- The `FreshRSS` widget state (`internal/widget/freshrss.go`).  The
`widgetBase` plumbing is reduced to the title and cache-duration fields this
code sets; the float-typed heights are modelled as rationals. -/
structure FreshRSSWidget where
  title : String
  cacheDurationSecs : Int
  feedRequests : List FeedRSS.RSSFeedRequest
  style : String
  thumbnailHeight : ℚ
  cardHeight : ℚ
  items : List FeedRSS.RSSFeedItem
  limit : Int
  collapseAfter : Int
  singleLineTitles : Bool
  noItemsMessage : String
  freshRSSUrl : String
  freshRSSUser : String
  freshRSSApiPass : String
deriving DecidableEq

/-- `Initialize`: each defaulting statement of the source reads only fields
no earlier statement modifies, so the sequence is rendered as one parallel
record update. -/
def Initialize (w : FreshRSSWidget) : FreshRSSWidget :=
  { w with
    title := "FreshRSS Feed"
    cacheDurationSecs := 3600
    limit := if w.limit ≤ 0 then 25 else w.limit
    collapseAfter :=
      if w.collapseAfter = 0 ∨ w.collapseAfter < -1 then 5 else w.collapseAfter
    thumbnailHeight := if w.thumbnailHeight < 0 then 0 else w.thumbnailHeight
    cardHeight := if w.cardHeight < 0 then 0 else w.cardHeight
    feedRequests :=
      if w.style = "detailed-list"
      then w.feedRequests.map (fun r => { r with isDetailed := true })
      else w.feedRequests
    noItemsMessage := "No items were returned from the feeds." }

/-- `Update`: on a fetch error the state is left unchanged (the
`canContinueUpdateAfterHandlingErr` helper is outside the given sources;
modelled from the spec: the widget keeps its last good data on error).  On
success the items are truncated to `Limit` when they exceed it; Go's
`items[:Limit]` is modelled by `List.take` (it would panic for a negative
`Limit`, which `Initialize` rules out). -/
def Update (w : FreshRSSWidget)
    (fetched : Except String (List FeedRSS.RSSFeedItem)) : FreshRSSWidget :=
  match fetched with
  | .error _ => w
  | .ok items =>
    let items :=
      if (items.length : Int) > w.limit then items.take w.limit.toNat else items
    { w with items := items }

/-- C9: after `Initialize` the limit is positive (a configured value of zero
or less becomes 25), and after a successful `Update` the stored item list
has length at most the widget's limit. -/
theorem freshrss_limit_positive_and_respected (w : FreshRSSWidget)
    (fetched : Except String (List FeedRSS.RSSFeedItem))
    (items : List FeedRSS.RSSFeedItem) (hok : fetched = .ok items) :
    0 < (Initialize w).limit ∧
    (w.limit ≤ 0 → (Initialize w).limit = 25) ∧
    ((Update (Initialize w) fetched).items.length : Int) ≤
      (Update (Initialize w) fetched).limit := by
  subst hok
  have hlim : (Initialize w).limit = if w.limit ≤ 0 then 25 else w.limit := rfl
  have hpos : 0 < (Initialize w).limit := by
    rw [hlim]; split <;> omega
  refine ⟨hpos, ?_, ?_⟩
  · intro hle
    rw [hlim, if_pos hle]
  · show ((if (items.length : Int) > (Initialize w).limit
        then items.take (Initialize w).limit.toNat else items).length : Int) ≤
      (Initialize w).limit
    split
    · rename_i hgt
      rw [List.length_take]
      omega
    · rename_i hle
      omega

/-- A concrete run of the C9 theorem: a widget configured with limit 0 and a
successful fetch of one item. -/
theorem freshrss_limit_positive_and_respected_witness :
    0 < (Initialize
      { title := "", cacheDurationSecs := 0, feedRequests := [], style := "",
        thumbnailHeight := 0, cardHeight := 0, items := [], limit := 0,
        collapseAfter := 0, singleLineTitles := false, noItemsMessage := "",
        freshRSSUrl := "", freshRSSUser := "", freshRSSApiPass := "" }).limit ∧
    ((0 : Int) ≤ 0 → (Initialize
      { title := "", cacheDurationSecs := 0, feedRequests := [], style := "",
        thumbnailHeight := 0, cardHeight := 0, items := [], limit := 0,
        collapseAfter := 0, singleLineTitles := false, noItemsMessage := "",
        freshRSSUrl := "", freshRSSUser := "", freshRSSApiPass := "" }).limit = 25) ∧
    (((Update (Initialize
      { title := "", cacheDurationSecs := 0, feedRequests := [], style := "",
        thumbnailHeight := 0, cardHeight := 0, items := [], limit := 0,
        collapseAfter := 0, singleLineTitles := false, noItemsMessage := "",
        freshRSSUrl := "", freshRSSUser := "", freshRSSApiPass := "" })
      (.ok [{ raw := "i" }])).items.length : Int) ≤
      (Update (Initialize
      { title := "", cacheDurationSecs := 0, feedRequests := [], style := "",
        thumbnailHeight := 0, cardHeight := 0, items := [], limit := 0,
        collapseAfter := 0, singleLineTitles := false, noItemsMessage := "",
        freshRSSUrl := "", freshRSSUser := "", freshRSSApiPass := "" })
      (.ok [{ raw := "i" }])).limit) :=
  freshrss_limit_positive_and_respected
    { title := "", cacheDurationSecs := 0, feedRequests := [], style := "",
      thumbnailHeight := 0, cardHeight := 0, items := [], limit := 0,
      collapseAfter := 0, singleLineTitles := false, noItemsMessage := "",
      freshRSSUrl := "", freshRSSUser := "", freshRSSApiPass := "" }
    (.ok [{ raw := "i" }]) [{ raw := "i" }] rfl

end WidgetRSS
